import Mathlib

/-!
# Verification of the FreshTrack expiry-state and reminder engine

A shallow embedding of the pantry tracker's core logic:

* `src/src/services/notificationService.js` — `calculateExpiryStatus`,
  `scheduleExpiryNotifications`, `checkAndUpdateExpiryStatus`;
* `src/App.js` — `handleDeleteItem`, `handleUpdateItem`.

Time is modelled as `Int` milliseconds since the epoch in a single uniform
time zone (no DST), so that one calendar day is exactly `86400000` ms.
The host JavaScript `Date` runtime is modelled explicitly on the date-string
formats the application exercises (ISO `YYYY-MM-DD`, textual `Mon DD, YYYY`,
and the legacy month-first `MM/DD/YYYY`); every other string is an invalid
date, which ECMAScript represents as a NaN time value and we represent as
`none`.  Crucially, the ECMAScript `new Date(string)` constructor never
throws on a malformed string — it returns an Invalid Date — which the model
records by wrapping the parse in an `Except` that is always `Except.ok`.
-/

/-- Milliseconds in one day. -/
def msPerDay : Int := 86400000

/-- `date.setHours(0,0,0,0)`: floor a millisecond timestamp to local
midnight (uniform-day model, single time zone). -/
def normalizeMidnight (ms : Int) : Int := ms - ms.emod msPerDay

/-- `Math.ceil(a / b)` for integer `a` and positive integer `b`, where the
JavaScript source performs the division in floating point.  On the inputs the
source feeds it (differences of midnight-normalized timestamps, hence exact
multiples of `msPerDay` well within double precision) the floating-point
quotient is exact, so the ceiling of the rational quotient is the faithful
model. -/
def mathCeilDiv (a b : Int) : Int := -((-a).fdiv b)

/-- Gregorian leap-year test. -/
def isLeapYear (y : Int) : Bool := (y % 4 = 0 && y % 100 ≠ 0) || y % 400 = 0

/-- Number of days in month `m` (1–12) of year `y`. -/
def daysInMonth (y : Int) (m : Nat) : Nat :=
  if m = 1 then 31
  else if m = 2 then (if isLeapYear y then 29 else 28)
  else if m = 3 then 31
  else if m = 4 then 30
  else if m = 5 then 31
  else if m = 6 then 30
  else if m = 7 then 31
  else if m = 8 then 31
  else if m = 9 then 30
  else if m = 10 then 31
  else if m = 11 then 30
  else if m = 12 then 31
  else 0

/-- Days since 1970-01-01 of the civil date `y-m-d` (proleptic Gregorian,
Howard Hinnant's `days_from_civil` algorithm); `m` is 1–12. -/
def daysFromCivil (y : Int) (m : Nat) (d : Nat) : Int :=
  let y2 : Int := if m ≤ 2 then y - 1 else y
  let era : Int := (if 0 ≤ y2 then y2 else y2 - 399).fdiv 400
  let yoe : Int := y2 - era * 400
  let mp : Int := if 2 < m then (m : Int) - 3 else (m : Int) + 9
  let doy : Int := (153 * mp + 2).fdiv 5 + (d : Int) - 1
  let doe : Int := yoe * 365 + yoe.fdiv 4 - yoe.fdiv 100 + doy
  era * 146097 + doe - 719468

/-- Midnight timestamp (ms) of the civil date `y-m-d`. -/
def civilMs (y : Int) (m : Nat) (d : Nat) : Int := daysFromCivil y m d * msPerDay

/-! ## Model of the ECMAScript Date runtime -/

/-- `new Date(year, monthIndex, day)`: the multi-argument `Date` constructor.
`monthIndex` is 0-based and rolls over out-of-range months into adjacent
years; an out-of-range `day` likewise rolls over, which the days-since-epoch
arithmetic handles by adding `day − 1` to the first of the normalized month.
Years 0–99 are interpreted as 1900–1999, per the ECMAScript specification.
Returns the local-midnight timestamp in ms. -/
def jsDateCtor (year : Int) (monthIndex : Int) (day : Int) : Int :=
  let y0 : Int := if 0 ≤ year ∧ year ≤ 99 then year + 1900 else year
  let total : Int := y0 * 12 + monthIndex
  let y1 : Int := total.fdiv 12
  let m1 : Nat := (total.emod 12).toNat + 1
  (daysFromCivil y1 m1 1 + (day - 1)) * msPerDay

/-- Split a character list on separator characters satisfying `p`, keeping
empty tokens — the semantics of JavaScript `String.prototype.split` with a
single-character-class regexp. -/
def splitCh (p : Char → Bool) : List Char → List (List Char)
  | [] => [[]]
  | c :: cs =>
    if p c then [] :: splitCh p cs
    else
      match splitCh p cs with
      | t :: ts => (c :: t) :: ts
      | [] => [[c]]

/-- Decimal digit test. -/
def isDigitCh (c : Char) : Bool := '0' ≤ c && c ≤ '9'

/-- Value of a non-empty all-digit token. -/
def digitsVal (cs : List Char) : Nat :=
  cs.foldl (fun a c => a * 10 + (c.toNat - 48)) 0

/-- Whether a token is non-empty and all decimal digits. -/
def allDigits (cs : List Char) : Bool :=
  !cs.isEmpty && cs.all isDigitCh

/-- `parseInt(s, 10)`: skip leading whitespace, take an optional sign and
the longest digit prefix; `NaN` (here `none`) when no digit is found. -/
def parseIntJS (s : String) : Option Int :=
  let cs := s.data.dropWhile (fun c => c.isWhitespace)
  let signed : Bool × List Char :=
    match cs with
    | '-' :: rest => (true, rest)
    | '+' :: rest => (false, rest)
    | rest => (false, rest)
  let digits := signed.2.takeWhile isDigitCh
  if digits.isEmpty then none
  else if signed.1 then some (-(digitsVal digits : Int))
  else some (digitsVal digits : Int)

/-- The twelve three-letter month abbreviations. -/
def monthAbbrevs : List (List Char) :=
  [['J','a','n'], ['F','e','b'], ['M','a','r'], ['A','p','r'],
   ['M','a','y'], ['J','u','n'], ['J','u','l'], ['A','u','g'],
   ['S','e','p'], ['O','c','t'], ['N','o','v'], ['D','e','c']]

/-- Month number (1–12) of a textual month token: its first three letters
must be one of the English month abbreviations (so `Nov` and `November`
both resolve to 11). -/
def monthFromToken (cs : List Char) : Option Nat :=
  match monthAbbrevs.findIdx? (fun a => cs.take 3 = a) with
  | some i => if 3 ≤ cs.length then some (i + 1) else none
  | none => none

/-- Drop one trailing comma from a token (`"30,"` → `"30"`). -/
def stripComma (cs : List Char) : List Char :=
  match cs.reverse with
  | ',' :: rest => rest.reverse
  | _ => cs

/-- Parse `YYYY-MM-DD` (date-only ISO form): midnight of that civil date,
or `none` when the shape or the calendar ranges are violated. -/
def parseISO (cs : List Char) : Option Int :=
  match splitCh (fun c => c = '-') cs with
  | [ys, ms, ds] =>
    if ys.length = 4 && ms.length = 2 && ds.length = 2 &&
        allDigits ys && allDigits ms && allDigits ds then
      let y : Int := digitsVal ys
      let m := digitsVal ms
      let d := digitsVal ds
      if 1 ≤ m && m ≤ 12 && 1 ≤ d && d ≤ daysInMonth y m then
        some (civilMs y m d)
      else none
    else none
  | _ => none

/-- Parse the textual form `Mon DD, YYYY` (also without the comma):
midnight of that civil date, or `none`. -/
def parseTextual (cs : List Char) : Option Int :=
  match (splitCh (fun c => c = ' ') cs).filter (fun t => !t.isEmpty) with
  | [mt, dt, yt] =>
    let dt2 := stripComma dt
    match monthFromToken mt with
    | some m =>
      if allDigits dt2 && allDigits yt then
        let d := digitsVal dt2
        let y : Int := digitsVal yt
        if 1 ≤ d && d ≤ daysInMonth y m then some (civilMs y m d) else none
      else none
    | none => none
  | _ => none

/-- Parse the legacy month-first slash form `MM/DD/YYYY`: midnight of that
civil date, with two-digit years mapped into 1950–2049; `none` when the
month or day is out of range — in particular a day-first string such as
`30/11/2025` is rejected because `30` is not a month. -/
def parseSlashMDY (cs : List Char) : Option Int :=
  match splitCh (fun c => c = '/') cs with
  | [ms, ds, ys] =>
    if allDigits ms && allDigits ds && allDigits ys then
      let m := digitsVal ms
      let d := digitsVal ds
      let yRaw := digitsVal ys
      let y : Int := if yRaw < 50 then yRaw + 2000
        else if yRaw < 100 then yRaw + 1900 else yRaw
      if 1 ≤ m && m ≤ 12 && 1 ≤ d && d ≤ daysInMonth y m then
        some (civilMs y m d)
      else none
    else none
  | _ => none

/-- Model of `new Date(string)`, the ECMAScript single-string `Date`
constructor, on the date-string formats the application exercises: ISO
`YYYY-MM-DD`, textual `Mon DD, YYYY`, and the legacy month-first
`MM/DD/YYYY`.  Any other string — in particular the empty string,
whitespace-only strings, free text, and day-first `DD/MM/YYYY` strings —
yields an Invalid Date (a NaN time value), modelled as `none`. -/
def jsDateParse (s : String) : Option Int :=
  match parseISO s.data with
  | some v => some v
  | none =>
    match parseTextual s.data with
    | some v => some v
    | none => parseSlashMDY s.data

/-- `new Date(string)` as it behaves inside a `try` block: the ECMAScript
constructor never throws on a malformed string (it returns an Invalid
Date), so the result is always `Except.ok`. -/
def jsDateParseCaught (s : String) : Except Unit (Option Int) :=
  Except.ok (jsDateParse s)

example : jsDateParse "Nov 30, 2025" = some (civilMs 2025 11 30) := by decide
example : jsDateParse "30/11/2025" = none := by decide
example : jsDateParse "11/30/2025" = some (civilMs 2025 11 30) := by decide
example : jsDateParse "2025-12-01" = some (civilMs 2025 12 1) := by decide
example : jsDateParse "" = none := by decide
example : jsDateParse "   " = none := by decide
example : jsDateParse "not a date" = none := by decide
example : jsDateParse "13/45/2025" = none := by decide

/-! ## notificationService.js -/

/-- The day-first fallback inside `calculateExpiryStatus` (lines 68–75):
split the string on `/` or `-`, and when that yields exactly three tokens
whose `parseInt` values are all numbers, construct
`new Date(y, m - 1, d)` reading the tokens day-first.  Otherwise the local
`expiryDate` stays `null`. -/
def dayFirstFallback (s : String) : Option Int :=
  match splitCh (fun c => c = '/' || c = '-') s.data with
  | [p1, p2, p3] =>
    match parseIntJS (String.mk p1), parseIntJS (String.mk p2),
        parseIntJS (String.mk p3) with
    | some d, some m, some y => some (jsDateCtor y (m - 1) d)
    | _, _, _ => none
  | _ => none

/-- Freshness classification from the ceiling day difference
(`notificationService.js` lines 88–97). -/
def statusOfDays (daysUntilExpiry : Int) : String :=
  if daysUntilExpiry < 0 then "expired"
  else if daysUntilExpiry ≤ 3 then "expiring"
  else "fresh"

/-- `calculateExpiryStatus(expiryDateStr)` (`notificationService.js`
lines 55–102), with `today` supplied explicitly in place of the ambient
`new Date()` read.  The argument is `Option String` because callers pass a
possibly-absent field, and `!expiryDateStr` is falsy for both an absent
value and the empty string.  The day-first fallback sits in a `catch`
around `new Date(expiryDateStr)`, so it runs only when the constructor
throws — which, per `jsDateParseCaught`, it never does. -/
def calculateExpiryStatus (todayMs : Int) (expiryDateStr : Option String) : String :=
  match expiryDateStr with
  | none => "fresh"
  | some s =>
    if s = "" then "fresh"
    else
      let expiryDate : Option Int :=
        match jsDateParseCaught s with
        | Except.ok d => d
        | Except.error _ => dayFirstFallback s
      match expiryDate with
      | none => "fresh"
      | some ms =>
        let today := normalizeMidnight todayMs
        let e := normalizeMidnight ms
        statusOfDays (mathCeilDiv (e - today) msPerDay)

/-- Date resolution in `scheduleExpiryNotifications` (lines 129–142):
`new Date(item.expiry_date)`, then — guarded by `isNaN`, not by a `catch` —
the same day-first split fallback. -/
def resolveExpiryDate (s : String) : Option Int :=
  match jsDateParse s with
  | some ms => some ms
  | none => dayFirstFallback s

/-- A pantry item as held in the App.js collection. -/
structure PantryItem where
  id : String
  name : String
  quantity : String
  expiry_date : Option String
  emoji : Option String
  category : String
  value : Option Int
  status : String
  deriving DecidableEq, Repr

/-- A notification request handed to
`Notifications.scheduleNotificationAsync`: `trigger = some t` fires at
timestamp `t`, `trigger = none` fires immediately (the JS `trigger: null`). -/
structure NotificationRequest where
  title : String
  body : String
  itemId : String
  itemName : String
  ntype : String
  trigger : Option Int
  deriving DecidableEq, Repr

/-- The item's emoji or the `'🍎'` default. -/
def emojiOf (item : PantryItem) : String :=
  match item.emoji with
  | some e => if e = "" then "🍎" else e
  | none => "🍎"

/-- The expiry-day notification (lines 148–162), firing at 09:00 on the
normalized expiry date `e`. -/
def notifT0 (item : PantryItem) (e : Int) : NotificationRequest :=
  { title := "⚠️ " ++ emojiOf item ++ " " ++ item.name ++ " expires today!"
    body := "Your " ++ item.name ++ " expires today. Use it now to avoid waste!"
    itemId := item.id, itemName := item.name, ntype := "expiry"
    trigger := some (e + 9 * 3600000) }

/-- The one-day-before notification (lines 164–180), firing at 09:00 one
day before the normalized expiry date `e`. -/
def notifT1 (item : PantryItem) (e : Int) : NotificationRequest :=
  { title := "⏰ " ++ emojiOf item ++ " " ++ item.name ++ " expires tomorrow!"
    body := "Your " ++ item.name ++ " expires tomorrow. Plan to use it soon!"
    itemId := item.id, itemName := item.name, ntype := "expiry"
    trigger := some (e - msPerDay + 9 * 3600000) }

/-- The three-days-before notification (lines 182–197), firing at 09:00
three days before the normalized expiry date `e`. -/
def notifT3 (item : PantryItem) (e : Int) : NotificationRequest :=
  { title := "📅 " ++ emojiOf item ++ " " ++ item.name ++ " expiring soon!"
    body := "Your " ++ item.name ++ " expires in 3 days. Consider using it soon!"
    itemId := item.id, itemName := item.name, ntype := "expiry"
    trigger := some (e - 3 * msPerDay + 9 * 3600000) }

/-- The immediate overdue notification (lines 199–212), `trigger: null`. -/
def notifOverdue (item : PantryItem) : NotificationRequest :=
  { title := "❌ " ++ emojiOf item ++ " " ++ item.name ++ " has expired!"
    body := "Your " ++ item.name ++
      " has expired. Please check if it's still safe to consume."
    itemId := item.id, itemName := item.name, ntype := "expired"
    trigger := none }

/-- The notification requests the loop body of `scheduleExpiryNotifications`
(lines 125–212) issues for one item, in source order: skip an item with a
falsy or unresolvable `expiry_date`; otherwise emit T-0 when
`daysUntilExpiry ≥ 0`, T-1 when `≥ 1`, T-3 when `≥ 3`, and the immediate
overdue notification when `-1 ≤ daysUntilExpiry < 0`. -/
def planItemEvents (todayMs : Int) (item : PantryItem) : List NotificationRequest :=
  match item.expiry_date with
  | none => []
  | some s =>
    if s = "" then []
    else
      match resolveExpiryDate s with
      | none => []
      | some ms =>
        let today := normalizeMidnight todayMs
        let e := normalizeMidnight ms
        let daysUntilExpiry := mathCeilDiv (e - today) msPerDay
        (if 0 ≤ daysUntilExpiry then [notifT0 item e] else []) ++
        (if 1 ≤ daysUntilExpiry then [notifT1 item e] else []) ++
        (if 3 ≤ daysUntilExpiry then [notifT3 item e] else []) ++
        (if daysUntilExpiry < 0 ∧ -1 ≤ daysUntilExpiry then [notifOverdue item]
         else [])

/-- Environment of the notification subsystem: the platform OS, the
permission statuses the Expo API reports, and which
`scheduleNotificationAsync` calls throw (a deterministic failure oracle). -/
structure NotifEnv where
  os : String
  existingStatus : String
  requestedStatus : String
  schedFails : NotificationRequest → Bool

/-- `requestNotificationPermissions()` (lines 16–50): `false` on web;
otherwise granted iff the existing status is `granted` or, failing that,
the freshly requested status is. -/
def requestNotificationPermissions (env : NotifEnv) : Bool :=
  if env.os = "web" then false
  else
    let finalStatus :=
      if env.existingStatus ≠ "granted" then env.requestedStatus
      else env.existingStatus
    finalStatus = "granted"

/-- One item's trip through the scheduling loop body under the failure
oracle: the `try`/`catch` at lines 128–215 wraps the whole body, so the
first `scheduleNotificationAsync` that throws abandons the rest of THIS
item's notifications (the error is logged) — the scheduled ones are the
longest failure-free prefix of the item's planned list. -/
def scheduleItemEvents (env : NotifEnv) (todayMs : Int) (item : PantryItem) :
    List NotificationRequest :=
  (planItemEvents todayMs item).takeWhile (fun r => !env.schedFails r)

/-- The `for (const item of items)` loop (lines 125–216), accumulating the
notifications actually scheduled. -/
def scheduleLoop (env : NotifEnv) (todayMs : Int) (items : List PantryItem) :
    List NotificationRequest :=
  items.foldl (fun acc item => acc ++ scheduleItemEvents env todayMs item) []

/-- `scheduleExpiryNotifications(items)` (lines 108–220) acting on the set
of currently scheduled notifications: a no-op on web; otherwise cancel all
scheduled notifications unconditionally, then stop if permission is not
granted, else schedule the freshly planned notifications item by item. -/
def scheduleExpiryNotifications (env : NotifEnv) (todayMs : Int)
    (items : List PantryItem) (scheduled : List NotificationRequest) :
    List NotificationRequest :=
  if env.os = "web" then scheduled
  else
    if requestNotificationPermissions env then scheduleLoop env todayMs items
    else []

/-- `checkAndUpdateExpiryStatus(items)` (lines 225–233): map over the
collection, rebuilding each item with its freshly computed status. -/
def checkAndUpdateExpiryStatus (todayMs : Int) (items : List PantryItem) :
    List PantryItem :=
  items.map (fun item =>
    { item with status := calculateExpiryStatus todayMs item.expiry_date })

/-! ## App.js handlers -/

/-- `handleDeleteItem(itemId)` (`App.js` lines 195–217): look the item up,
remove it from the collection optimistically, await the remote delete; on
remote failure append the saved item back (`[...prev, item].filter(Boolean)`)
and surface an error toast.  Returns the final collection, the intermediate
optimistic collection, and whether an error was surfaced. -/
def handleDeleteItem (items : List PantryItem) (itemId : String)
    (remoteOk : Bool) : List PantryItem × List PantryItem × Bool :=
  let item := items.find? (fun i => i.id = itemId)
  let optimistic := items.filter (fun it => it.id ≠ itemId)
  if remoteOk then (optimistic, optimistic, false)
  else
    let rolledBack :=
      match item with
      | some it => optimistic ++ [it]
      | none => optimistic
    (rolledBack, optimistic, true)

/-- The successful path of `handleUpdateItem(updatedItem)` (`App.js` lines
162–194): the remote store returns `updated`; the collection has the item
with the editing id replaced by `updated` and is then reclassified by
`checkAndUpdateExpiryStatus` (the reclassified collection is the one kept
and passed to `scheduleExpiryNotifications`). -/
def handleUpdateItem (todayMs : Int) (items : List PantryItem)
    (editingId : String) (updated : PantryItem) : List PantryItem :=
  checkAndUpdateExpiryStatus todayMs
    (items.map (fun item => if item.id = editingId then updated else item))

/-- Restatement of the classification path with the dead `catch` branch cut
out: resolution by the native parse only, never the day-first fallback.
Named for comparison with `calculateExpiryStatus`, whose fallback sits in
an unreachable `catch`. -/
def calculateExpiryStatusNativeOnly (todayMs : Int) (s : String) : String :=
  if s = "" then "fresh"
  else
    match jsDateParse s with
    | none => "fresh"
    | some ms =>
      statusOfDays
        (mathCeilDiv (normalizeMidnight ms - normalizeMidnight todayMs) msPerDay)

/-! ## Helper lemmas -/

/-- The empty string is not a parseable date. -/
lemma jsDateParse_empty : jsDateParse "" = none := by decide

/-- The scheduling path cannot resolve the empty string either. -/
lemma resolveExpiryDate_empty : resolveExpiryDate "" = none := by decide

/-- A string the native parser accepts is not empty. -/
lemma ne_empty_of_jsDateParse (s : String) (m : Int) (h : jsDateParse s = some m) :
    s ≠ "" := by
  intro he
  rw [he, jsDateParse_empty] at h
  exact Option.noConfusion h

/-- `calculateExpiryStatus` on a parseable string reduces to the
classification of the ceiling day difference. -/
lemma calculateExpiryStatus_of_parse (todayMs : Int) (s : String) (m : Int)
    (h : jsDateParse s = some m) :
    calculateExpiryStatus todayMs (some s) =
      statusOfDays
        (mathCeilDiv (normalizeMidnight m - normalizeMidnight todayMs) msPerDay) := by
  have hne : s ≠ "" := ne_empty_of_jsDateParse s m h
  simp only [calculateExpiryStatus, jsDateParseCaught, h, if_neg hne]

/-- The scheduling loop is the concatenation of the per-item scheduled
lists. -/
lemma foldl_append_eq_flatten {α β : Type} (f : α → List β) :
    ∀ (l : List α) (acc : List β),
      l.foldl (fun a i => a ++ f i) acc = acc ++ (l.map f).flatten := by
  intro l
  induction l with
  | nil => intro acc; simp
  | cons hd tl ih =>
    intro acc
    simp only [List.foldl_cons, List.map_cons, List.flatten_cons, ih,
      List.append_assoc]

/-- `scheduleLoop` decomposed item by item. -/
lemma scheduleLoop_eq_flatten (env : NotifEnv) (todayMs : Int)
    (items : List PantryItem) :
    scheduleLoop env todayMs items
      = (items.map (scheduleItemEvents env todayMs)).flatten := by
  simpa using foldl_append_eq_flatten (scheduleItemEvents env todayMs) items []

/-! ## Claims -/

/-- C1.  For every expiry-date string the classification path resolves,
`calculateExpiryStatus` computes
`daysUntilExpiry = ceil((resolvedDate − today) / 1 day)` with both operands
normalized to midnight, and returns `expired` when it is negative,
`expiring` when it is between 0 and 3 inclusive, and `fresh` when it
exceeds 3. -/
theorem calculateExpiryStatus_threshold_spec (todayMs : Int) (s : String)
    (m : Int) (h : jsDateParse s = some m) :
    (mathCeilDiv (normalizeMidnight m - normalizeMidnight todayMs) msPerDay < 0 →
      calculateExpiryStatus todayMs (some s) = "expired") ∧
    (0 ≤ mathCeilDiv (normalizeMidnight m - normalizeMidnight todayMs) msPerDay ∧
        mathCeilDiv (normalizeMidnight m - normalizeMidnight todayMs) msPerDay ≤ 3 →
      calculateExpiryStatus todayMs (some s) = "expiring") ∧
    (3 < mathCeilDiv (normalizeMidnight m - normalizeMidnight todayMs) msPerDay →
      calculateExpiryStatus todayMs (some s) = "fresh") := by
  rw [calculateExpiryStatus_of_parse todayMs s m h]
  set d := mathCeilDiv (normalizeMidnight m - normalizeMidnight todayMs) msPerDay
  refine ⟨?_, ?_, ?_⟩
  · intro hd
    simp [statusOfDays, hd]
  · rintro ⟨hd0, hd3⟩
    have h1 : ¬ d < 0 := by omega
    simp [statusOfDays, h1, hd3]
  · intro hd
    have h1 : ¬ d < 0 := by omega
    have h2 : ¬ d ≤ 3 := by omega
    simp [statusOfDays, h1, h2]

/-- Witness for C1: "Dec 6, 2025" seen from Dec 1, 2025 is five days out,
hence `fresh`. -/
theorem calculateExpiryStatus_threshold_spec_witness :
    calculateExpiryStatus (civilMs 2025 12 1) (some "Dec 6, 2025") = "fresh" :=
  (calculateExpiryStatus_threshold_spec (civilMs 2025 12 1) "Dec 6, 2025"
    (civilMs 2025 12 6) (by decide)).2.2 (by decide)

/-- C2.  When resolution fails on the classification path — an absent
value, the empty string, a whitespace-only string, or any string the
native parse rejects — classification returns `fresh`; an unparsable date
is never classified `expired` or `expiring`. -/
theorem calculateExpiryStatus_failOpen (todayMs : Int) (s : String)
    (h : jsDateParse s = none) :
    calculateExpiryStatus todayMs none = "fresh" ∧
    calculateExpiryStatus todayMs (some s) = "fresh" := by
  refine ⟨rfl, ?_⟩
  by_cases hne : s = ""
  · simp [calculateExpiryStatus, hne]
  · simp only [calculateExpiryStatus, jsDateParseCaught, h, if_neg hne]

/-- Witness for C2: `"not a date"`, the empty string and a whitespace-only
string are all classified `fresh`. -/
theorem calculateExpiryStatus_failOpen_witness :
    calculateExpiryStatus 0 (some "not a date") = "fresh" ∧
    calculateExpiryStatus 0 (some "") = "fresh" ∧
    calculateExpiryStatus 0 (some "   ") = "fresh" :=
  ⟨(calculateExpiryStatus_failOpen 0 "not a date" (by decide)).2,
   (calculateExpiryStatus_failOpen 0 "" (by decide)).2,
   (calculateExpiryStatus_failOpen 0 "   " (by decide)).2⟩

/-- A concrete item whose expiry date is the day-first string
`30/11/2025`, used to exhibit the divergence between the two resolution
paths. -/
def itemDayFirst : PantryItem :=
  { id := "42", name := "Yogurt", quantity := "1", emoji := some "🥛"
    expiry_date := some "30/11/2025", category := "dairy", value := none
    status := "fresh" }

/-- C10.  In `calculateExpiryStatus` the day-first fallback sits in a
`catch` around the native `Date` construction, which never throws, so the
fallback is unreachable: classification coincides everywhere with the
native-parse-only function.  Consequently the day-first string
`30/11/2025`, seen from Dec 1, 2025, is classified `fresh` — even though
`scheduleExpiryNotifications` resolves the very same string through its
`isNaN`-guarded fallback to Nov 30, 2025 and plans an (overdue) reminder
for it. -/
theorem calculateExpiryStatus_fallback_unreachable :
    (∀ (todayMs : Int) (s : String),
      calculateExpiryStatus todayMs (some s)
        = calculateExpiryStatusNativeOnly todayMs s) ∧
    calculateExpiryStatus (civilMs 2025 12 1) (some "30/11/2025") = "fresh" ∧
    resolveExpiryDate "30/11/2025" = some (civilMs 2025 11 30) ∧
    planItemEvents (civilMs 2025 12 1) itemDayFirst
      = [notifOverdue itemDayFirst] := by
  refine ⟨?_, by decide, by decide, by decide⟩
  intro todayMs s
  by_cases hne : s = ""
  · simp [calculateExpiryStatus, calculateExpiryStatusNativeOnly, hne]
  · simp only [calculateExpiryStatus, calculateExpiryStatusNativeOnly,
      jsDateParseCaught, if_neg hne]

/-- C4 (code bug).  The day-first fallback never runs on the
classification path: `30/11/2025` is classified `fresh` from Dec 1, 2025
(instead of `expired`), while the reminder-planning path resolves the same
string day-first to exactly the date of `Nov 30, 2025`. -/
theorem dayFirst_agreement_only_in_planning :
    calculateExpiryStatus (civilMs 2025 12 1) (some "30/11/2025") = "fresh" ∧
    resolveExpiryDate "30/11/2025" = jsDateParse "Nov 30, 2025" ∧
    jsDateParse "Nov 30, 2025" = some (civilMs 2025 11 30) := by
  refine ⟨by decide, by decide, by decide⟩

/-- C3.  For an item whose expiry date resolves, the planner emits exactly
the T-0, T-1, T-3 series when it expires in 5 days, exactly T-0 and T-1
when in 1 day, exactly T-0 when today, exactly the single immediate
overdue notification when it expired yesterday, and nothing when it
expired 5 days ago. -/
theorem planItemEvents_counts (todayMs : Int) (item : PantryItem) (s : String)
    (m : Int) (hs : item.expiry_date = some s)
    (hm : resolveExpiryDate s = some m) :
    (mathCeilDiv (normalizeMidnight m - normalizeMidnight todayMs) msPerDay = 5 →
      planItemEvents todayMs item
        = [notifT0 item (normalizeMidnight m), notifT1 item (normalizeMidnight m),
           notifT3 item (normalizeMidnight m)]) ∧
    (mathCeilDiv (normalizeMidnight m - normalizeMidnight todayMs) msPerDay = 1 →
      planItemEvents todayMs item
        = [notifT0 item (normalizeMidnight m), notifT1 item (normalizeMidnight m)]) ∧
    (mathCeilDiv (normalizeMidnight m - normalizeMidnight todayMs) msPerDay = 0 →
      planItemEvents todayMs item = [notifT0 item (normalizeMidnight m)]) ∧
    (mathCeilDiv (normalizeMidnight m - normalizeMidnight todayMs) msPerDay = -1 →
      planItemEvents todayMs item = [notifOverdue item]) ∧
    (mathCeilDiv (normalizeMidnight m - normalizeMidnight todayMs) msPerDay = -5 →
      planItemEvents todayMs item = []) := by
  have hne : s ≠ "" := by
    intro he
    rw [he, resolveExpiryDate_empty] at hm
    exact Option.noConfusion hm
  simp only [planItemEvents, hs, if_neg hne, hm]
  set d := mathCeilDiv (normalizeMidnight m - normalizeMidnight todayMs) msPerDay
  refine ⟨?_, ?_, ?_, ?_, ?_⟩ <;> intro hd <;> rw [hd] <;> norm_num

/-- A concrete item expiring Dec 6, 2025, five days after the fixed "today"
of Dec 1, 2025 used in witnesses. -/
def itemMilk : PantryItem :=
  { id := "1", name := "Milk", quantity := "1 L", emoji := some "🥛"
    expiry_date := some "Dec 6, 2025", category := "dairy", value := none
    status := "fresh" }

/-- Witness for C3: the item expiring in five days gets exactly the three
T-series notifications. -/
theorem planItemEvents_counts_witness :
    planItemEvents (civilMs 2025 12 1) itemMilk
      = [notifT0 itemMilk (normalizeMidnight (civilMs 2025 12 6)),
         notifT1 itemMilk (normalizeMidnight (civilMs 2025 12 6)),
         notifT3 itemMilk (normalizeMidnight (civilMs 2025 12 6))] :=
  (planItemEvents_counts (civilMs 2025 12 1) itemMilk "Dec 6, 2025"
    (civilMs 2025 12 6) (by decide) (by decide)).1 (by decide)

/-- C5.  Reconciliation is idempotent: because every run cancels all
previously scheduled reminders and then schedules the freshly planned set,
running `scheduleExpiryNotifications` twice with the same arguments leaves
exactly the scheduled set a single run leaves, whatever the platform,
permission state and failure pattern. -/
theorem scheduleExpiryNotifications_idempotent (env : NotifEnv) (todayMs : Int)
    (items : List PantryItem) (scheduled : List NotificationRequest) :
    scheduleExpiryNotifications env todayMs items
        (scheduleExpiryNotifications env todayMs items scheduled)
      = scheduleExpiryNotifications env todayMs items scheduled := by
  by_cases hweb : env.os = "web"
  · simp [scheduleExpiryNotifications, hweb]
  · by_cases hperm : requestNotificationPermissions env
    · simp [scheduleExpiryNotifications, hweb, hperm]
    · simp [scheduleExpiryNotifications, hweb, hperm]

/-- C6.  Delete is optimistic with rollback: for an item present in the
collection, the local removal happens before the remote outcome is known
(the intermediate collection is the filtered one on both the success and
the failure path), and when the remote delete fails the rolled-back
collection has exactly the id-set of the original collection and an error
is surfaced. -/
theorem handleDeleteItem_rollback (items : List PantryItem) (itemId : String)
    (h : ∃ it ∈ items, it.id = itemId) :
    (∀ remoteOk : Bool, (handleDeleteItem items itemId remoteOk).2.1
        = items.filter (fun it => it.id ≠ itemId)) ∧
    (∀ x, x ∈ (handleDeleteItem items itemId false).1.map (fun it => it.id)
        ↔ x ∈ items.map (fun it => it.id)) ∧
    (handleDeleteItem items itemId false).2.2 = true := by
  obtain ⟨it0, hmem0, hid0⟩ := h
  have hsome : (items.find? (fun i => i.id = itemId)).isSome := by
    rw [List.find?_isSome]
    exact ⟨it0, hmem0, by simp [hid0]⟩
  obtain ⟨u, hu⟩ := Option.isSome_iff_exists.mp hsome
  have hu_id : u.id = itemId := by simpa using List.find?_some hu
  have hu_mem : u ∈ items := List.mem_of_find?_eq_some hu
  refine ⟨?_, ?_, ?_⟩
  · intro remoteOk
    cases remoteOk <;> simp [handleDeleteItem, hu]
  · intro x
    simp only [handleDeleteItem, hu, Bool.false_eq_true, if_false,
      List.map_append, List.mem_append, List.map_cons, List.map_nil,
      List.mem_singleton, List.mem_map, List.mem_filter]
    constructor
    · rintro (⟨it, ⟨hit, _⟩, rfl⟩ | rfl)
      · exact ⟨it, hit, rfl⟩
      · exact ⟨u, hu_mem, rfl⟩
    · rintro ⟨it, hit, rfl⟩
      by_cases hcase : it.id = itemId
      · right; rw [hcase, hu_id]
      · left; exact ⟨it, ⟨hit, by simp [hcase]⟩, rfl⟩
  · simp [handleDeleteItem, hu]

/-- A second concrete item, far from expiry, used as the untouched
bystander in witnesses. -/
def itemBread : PantryItem :=
  { id := "2", name := "Bread", quantity := "1", emoji := some "🍞"
    expiry_date := some "Dec 25, 2025", category := "bakery", value := none
    status := "fresh" }

/-- Witness for C6: deleting `itemMilk` from a two-item collection with a
failing remote call preserves the id-set and surfaces an error. -/
theorem handleDeleteItem_rollback_witness :
    (∀ remoteOk : Bool,
        (handleDeleteItem [itemMilk, itemBread] "1" remoteOk).2.1
          = [itemMilk, itemBread].filter (fun it => it.id ≠ "1")) ∧
    (∀ x, x ∈ (handleDeleteItem [itemMilk, itemBread] "1" false).1.map
          (fun it => it.id)
        ↔ x ∈ [itemMilk, itemBread].map (fun it => it.id)) ∧
    (handleDeleteItem [itemMilk, itemBread] "1" false).2.2 = true :=
  handleDeleteItem_rollback [itemMilk, itemBread] "1"
    ⟨itemMilk, by simp, rfl⟩

/-- A notification environment on a native platform with permission
granted, in which exactly the T-0 request for `itemMilk` throws when
scheduled. -/
def envFailT0 : NotifEnv :=
  { os := "ios", existingStatus := "granted", requestedStatus := "granted"
    schedFails := fun r =>
      decide (r = notifT0 itemMilk (normalizeMidnight (civilMs 2025 12 6))) }

/-- Counterexample to C7 as stated: with only the T-0 request of
`itemMilk` failing, reconciliation schedules nothing at all for the item —
the T-1 and T-3 requests, although individually non-failing, are never
attempted, because the `catch` wraps the whole per-item loop body rather
than each scheduling call. -/
theorem schedule_not_per_event_independent :
    scheduleExpiryNotifications envFailT0 (civilMs 2025 12 1) [itemMilk] []
      = [] ∧
    (planItemEvents (civilMs 2025 12 1) itemMilk).filter
        (fun r => !envFailT0.schedFails r)
      = [notifT1 itemMilk (normalizeMidnight (civilMs 2025 12 6)),
         notifT3 itemMilk (normalizeMidnight (civilMs 2025 12 6))] ∧
    scheduleExpiryNotifications envFailT0 (civilMs 2025 12 1) [itemMilk] []
      ≠ (planItemEvents (civilMs 2025 12 1) itemMilk).filter
          (fun r => !envFailT0.schedFails r) := by
  refine ⟨by decide, by decide, by decide⟩

/-- C7 (amended).  Failure isolation is per item, not per event: on a
native platform with permission granted, reconciliation schedules, for
each item independently, the longest failure-free prefix of that item's
planned events — a failing scheduling call skips the rest of that item's
events but never aborts the remaining items, and no error propagates. -/
theorem schedule_failure_isolated_per_item (env : NotifEnv) (todayMs : Int)
    (items : List PantryItem) (scheduled : List NotificationRequest)
    (hweb : env.os ≠ "web") (hperm : requestNotificationPermissions env = true) :
    scheduleExpiryNotifications env todayMs items scheduled
      = (items.map (fun item =>
          (planItemEvents todayMs item).takeWhile
            (fun r => !env.schedFails r))).flatten := by
  simp only [scheduleExpiryNotifications, if_neg hweb, hperm, if_true]
  rw [scheduleLoop_eq_flatten]
  rfl

/-- Witness for the amended C7: with `itemMilk`'s T-0 request failing, the
run schedules nothing for `itemMilk` but still schedules all of
`itemBread`'s requests. -/
theorem schedule_failure_isolated_per_item_witness :
    scheduleExpiryNotifications envFailT0 (civilMs 2025 12 1)
        [itemMilk, itemBread] []
      = ([itemMilk, itemBread].map (fun item =>
          (planItemEvents (civilMs 2025 12 1) item).takeWhile
            (fun r => !envFailT0.schedFails r))).flatten :=
  schedule_failure_isolated_per_item envFailT0 (civilMs 2025 12 1)
    [itemMilk, itemBread] [] (by decide) (by decide)

/-- C8.  A successful update whose new expiry date resolves to yesterday
reclassifies the whole collection but changes only the updated item: with
every other item's status already consistent, the resulting collection is
the original with just the edited id replaced by the updated item stamped
`expired`, and the planner emits exactly the single overdue notification
for the updated item while every untouched item — hence its planned
events — is unchanged. -/
theorem handleUpdateItem_frame (todayMs : Int) (items : List PantryItem)
    (editingId : String) (updated : PantryItem) (s : String) (m : Int)
    (hcons : ∀ it ∈ items,
      it.status = calculateExpiryStatus todayMs it.expiry_date)
    (hs : updated.expiry_date = some s)
    (hm : jsDateParse s = some m)
    (hy : normalizeMidnight m = normalizeMidnight todayMs - msPerDay) :
    handleUpdateItem todayMs items editingId updated
      = items.map (fun it =>
          if it.id = editingId then { updated with status := "expired" }
          else it) ∧
    planItemEvents todayMs { updated with status := "expired" }
      = [notifOverdue updated] := by
  have hdiff : normalizeMidnight m - normalizeMidnight todayMs = -msPerDay := by
    rw [hy]; ring
  have hceil : mathCeilDiv (normalizeMidnight m - normalizeMidnight todayMs)
      msPerDay = -1 := by
    rw [hdiff]; decide
  have hstatus : calculateExpiryStatus todayMs (some s) = "expired" := by
    rw [calculateExpiryStatus_of_parse todayMs s m hm, hceil]
    decide
  have hne : s ≠ "" := ne_empty_of_jsDateParse s m hm
  have hres : resolveExpiryDate s = some m := by
    simp [resolveExpiryDate, hm]
  constructor
  · simp only [handleUpdateItem, checkAndUpdateExpiryStatus, List.map_map]
    refine List.map_congr_left ?_
    intro it hit
    by_cases hcase : it.id = editingId
    · simp only [Function.comp, hcase, if_true, hs, hstatus]
    · simp only [Function.comp, hcase, if_false, ← hcons it hit]
  · simp only [planItemEvents, hs, if_neg hne, hres, hceil]
    norm_num
    rfl

/-- A concrete item expiring Dec 11, 2025 — ten days after the witness
"today" — before being edited. -/
def itemOld10 : PantryItem :=
  { id := "3", name := "Cheese", quantity := "200 g", emoji := some "🧀"
    expiry_date := some "Dec 11, 2025", category := "dairy", value := none
    status := "fresh" }

/-- `itemOld10` after the user edits its expiry date to Nov 30, 2025 —
yesterday relative to the witness "today" of Dec 1, 2025. -/
def itemEditedYesterday : PantryItem :=
  { itemOld10 with expiry_date := some "Nov 30, 2025" }

/-- Witness for C8: editing `itemOld10`'s expiry date from ten days out to
yesterday leaves `itemBread` untouched, stamps the edited item `expired`,
and plans exactly one overdue notification for it. -/
theorem handleUpdateItem_frame_witness :
    handleUpdateItem (civilMs 2025 12 1) [itemBread, itemOld10] "3"
        itemEditedYesterday
      = [itemBread, itemOld10].map (fun it =>
          if it.id = "3" then { itemEditedYesterday with status := "expired" }
          else it) ∧
    planItemEvents (civilMs 2025 12 1)
        { itemEditedYesterday with status := "expired" }
      = [notifOverdue itemEditedYesterday] :=
  handleUpdateItem_frame (civilMs 2025 12 1) [itemBread, itemOld10] "3"
    itemEditedYesterday "Nov 30, 2025" (civilMs 2025 11 30)
    (by decide) (by decide) (by decide) (by decide)

/-- C9.  Batch classification returns a new collection of the same length
whose entry at each position is the input entry with only the `status`
field replaced by the freshly computed classification; every other field
is preserved, the input collection is untouched, and each position is
classified independently of the rest of the collection (append
decomposition and positional determinism). -/
theorem checkAndUpdateExpiryStatus_batch (todayMs : Int)
    (items : List PantryItem) :
    (checkAndUpdateExpiryStatus todayMs items).length = items.length ∧
    (∀ j : Nat, (checkAndUpdateExpiryStatus todayMs items)[j]?
        = (items[j]?).map (fun it =>
            { it with status := calculateExpiryStatus todayMs it.expiry_date })) ∧
    (∀ xs ys : List PantryItem,
        checkAndUpdateExpiryStatus todayMs (xs ++ ys)
          = checkAndUpdateExpiryStatus todayMs xs
            ++ checkAndUpdateExpiryStatus todayMs ys) ∧
    (∀ it ∈ items, ∃ it2 ∈ checkAndUpdateExpiryStatus todayMs items,
        it2.id = it.id ∧ it2.name = it.name ∧ it2.quantity = it.quantity ∧
        it2.expiry_date = it.expiry_date ∧ it2.emoji = it.emoji ∧
        it2.category = it.category ∧ it2.value = it.value ∧
        it2.status = calculateExpiryStatus todayMs it.expiry_date) := by
  refine ⟨List.length_map .., ?_, ?_, ?_⟩
  · intro j
    simp [checkAndUpdateExpiryStatus]
  · intro xs ys
    simp [checkAndUpdateExpiryStatus]
  · intro it hit
    refine ⟨{ it with status := calculateExpiryStatus todayMs it.expiry_date },
      List.mem_map_of_mem _ hit, rfl, rfl, rfl, rfl, rfl, rfl, rfl, rfl⟩

/-- Witness for C9: the two-item collection from the other witnesses,
classified at Dec 1, 2025. -/
theorem checkAndUpdateExpiryStatus_batch_witness :
    ∃ it2 ∈ checkAndUpdateExpiryStatus (civilMs 2025 12 1)
        [itemMilk, itemBread],
      it2.id = itemMilk.id ∧ it2.name = itemMilk.name ∧
      it2.quantity = itemMilk.quantity ∧
      it2.expiry_date = itemMilk.expiry_date ∧ it2.emoji = itemMilk.emoji ∧
      it2.category = itemMilk.category ∧ it2.value = itemMilk.value ∧
      it2.status = calculateExpiryStatus (civilMs 2025 12 1)
        itemMilk.expiry_date :=
  (checkAndUpdateExpiryStatus_batch (civilMs 2025 12 1)
    [itemMilk, itemBread]).2.2.2 itemMilk (by simp)
